import Mathlib

/-!
Verification of the smartnode-sdk REST client's endpoint-mapping contract.

The SDK is a set of thin wrapper classes (SmartNodeRestful, ValidatorsRestful,
AccountsHashgraphRestful, TransactionsHashgraphRestful, HcsHashgraphRestful,
HtsHashgraphRestful), each holding a base path and exposing async methods that
build a URL from the base path and arguments, perform exactly one HTTP call via
the injected client, and return the decoded payload or log-and-rethrow the error.

This file embeds every method's request construction as a pure function,
models the shared try / await / catch / log / rethrow pattern explicitly,
and proves the specified properties of the mapping.
-/

namespace SmartnodeSdk

/-- HTTP verbs used by the SDK via the axios client. -/
inductive Verb where
  | GET
  | POST
  | PUT
  | PATCH
  | DELETE
deriving DecidableEq, Repr

/-- How a method hands a payload to the axios client: no payload at all,
as the positional data argument of post/put/patch, or inside the request
options as the data field (the axios delete call style). -/
inductive BodyPlacement (B : Type) where
  | noBody
  | positional (b : B)
  | dataField (b : B)
deriving DecidableEq, Repr

/-- Serialized query parameters: key/value pairs as they appear in the query string. -/
abbrev Params := List (String × String)

/-- One outgoing HTTP request as constructed by an SDK method.
The path is kept as its list of slash-separated segments, exactly as the
source template interpolates them; rendering joins them with a slash. -/
structure Request (B : Type) where
  verb : Verb
  path : List String
  params : Params
  body : BodyPlacement B
deriving DecidableEq, Repr

/-- The rendered URL string of a request, as the template literal produces it. -/
def Request.url (r : Request B) : String :=
  String.intercalate "/" r.path

/-- Builds the outgoing query-parameter list from optional entries.
Methods in the source either append to a URLSearchParams only when the
argument is not undefined (the explicit guards in the transactions methods),
or pass a plain object of all parameter names to the client.
Modelled from the spec: the transport collaborator (the injected axios
client, external to this repository) serializes a plain params object by
omitting entries whose value is undefined, so both styles send exactly the
defined entries, in order. -/
def optParams (l : List (String × Option String)) : Params :=
  l.filterMap fun kv => kv.2.map fun v => (kv.1, v)

/-- One invocation of one SDK method: a constructor per method of the six
restful classes, carrying the method's arguments. Payload objects have the
abstract type B; optional scalar arguments are Option-typed, with numbers as
Nat and enum-like strings as String. -/
inductive OpCall (B : Type) where
  | getIdentifier
  | getStatus
  | getNetwork
  | getUtilities
  | addConsensusValidator (p : B)
  | readConsensusValidator (timestamp : String)
  | addTokenValidator (p : B)
  | readTokenValidator (timestamp : String)
  | addAccountValidator (p : B)
  | readAccountValidator (timestamp : String)
  | getInfo (accountId : String)
  | getKeys (accountId : String)
  | getQueryBalance (accountId : String)
  | createAccount (p : B)
  | deleteAccount (accountId : String) (p : B)
  | updateAccount (accountId : String) (p : B)
  | transferHbar (p : B)
  | transferToken (p : B)
  | transferNftToken (p : B)
  | atomicSwap (p : B)
  | approveAllowance (p : B)
  | deleteAllowance (p : B)
  | getRestfulInfo (accountId : String) (limit : Option Nat) (order : Option String)
      (timestamp : Option String) (transactionType : Option String) (transactions : Option Bool)
  | getNftsForAccount (accountId : String)
  | getStakingRewardsForAccount (accountId : String) (limit : Option Nat)
      (order : Option String) (timestamp : Option String)
  | getTokenRelationships (accountId : String) (limit : Option Nat)
      (order : Option String) (token : Option String)
  | getTransactionById (transactionId : String) (nonce : Option Nat) (scheduled : Option Bool)
  | getTransactions (accountId : Option String) (limit : Option Nat) (order : Option String)
      (timestamp : Option String) (transactionType : Option String)
      (result : Option String) (txType : Option String)
  | getRestfulTransactionById (transactionId : String) (nonce : Option Nat) (scheduled : Option Bool)
  | getTransactionStateProof (transactionId : String) (nonce : Option Nat) (scheduled : Option Bool)
  | getScheduledTransaction (scheduleId : String)
  | createTopic (p : B)
  | updateTopic (topicId : String) (p : B)
  | deleteTopic (topicId : String) (p : B)
  | getTopicInfo (topicId : String)
  | submitMessage (topicId : String) (p : B)
  | getMessages (topicId : String) (info : List (String × Option String))
  | getRestfulMessages (topicId : String) (encoding : Option String) (limit : Option Nat)
      (order : Option String) (sequenceNumber : Option Nat) (timestamp : Option String)
  | getMessageByIdAndSequenceNumber (topicId : String) (sequenceNumber : Nat)
  | getMessageByTimestamp (timestamp : String)
  | createToken (p : B)
  | updateToken (tokenId : String) (p : B)
  | updateTokenFees (tokenId : String) (p : B)
  | deleteToken (tokenId : String)
  | pauseToken (tokenId : String)
  | unpauseToken (tokenId : String)
  | freezeToken (tokenId : String)
  | unfreezeToken (tokenId : String)
  | grantKyc (tokenId : String) (p : B)
  | revokeKyc (tokenId : String) (p : B)
  | mintToken (p : B)
  | wipeToken (p : B)
  | burnToken (p : B)
  | mintNftToken (p : B)
  | wipeNftToken (p : B)
  | burnNftToken (p : B)
  | getTokenInfo (tokenId : String)
  | getNftInfo (tokenId : String) (serialNumber : Nat)
  | getRestfulTokenInfo (tokenId : String) (timestamp : Option String)
  | getTokenBalances (tokenId : String) (accountBalance : Option Nat) (accountId : Option String)
      (accountPublicKey : Option String) (limit : Option Nat) (order : Option String)
      (timestamp : Option String)
  | getTokenNfts (tokenId : String) (accountId : Option String) (limit : Option Nat)
      (order : Option String) (serialNumber : Option Nat)
  | getTokenNftBySerialNumber (tokenId : String) (serialNumber : Nat)
  | getTokenNftTransactionHistory (tokenId : String) (serialNumber : Nat) (limit : Option Nat)
      (order : Option String) (timestamp : Option String)

/-- The verb, path template, optional query entries (in source order, with the
value rendering applied by the source) and body placement of each method,
translated method by method from the six restful classes. -/
structure OpSpec (B : Type) where
  verb : Verb
  path : List String
  raw : List (String × Option String)
  body : BodyPlacement B

/-- Translation of every method's request construction from the source.
Base paths are the ones each class fixes in its constructor: smart-node,
validators, accounts, transactions, hcs, hts. -/
def opSpec : OpCall B → OpSpec B
  | .getIdentifier => ⟨.GET, ["smart-node", "identifier"], [], .noBody⟩
  | .getStatus => ⟨.GET, ["smart-node", "status"], [], .noBody⟩
  | .getNetwork => ⟨.GET, ["smart-node", "network"], [], .noBody⟩
  | .getUtilities => ⟨.GET, ["smart-node", "utilities"], [], .noBody⟩
  | .addConsensusValidator p => ⟨.POST, ["validators", "consensus"], [], .positional p⟩
  | .readConsensusValidator ts => ⟨.GET, ["validators", "consensus", ts], [], .noBody⟩
  | .addTokenValidator p => ⟨.POST, ["validators", "tokens"], [], .positional p⟩
  | .readTokenValidator ts => ⟨.GET, ["validators", "tokens", ts], [], .noBody⟩
  | .addAccountValidator p => ⟨.POST, ["validators", "accounts"], [], .positional p⟩
  | .readAccountValidator ts => ⟨.GET, ["validators", "accounts", ts], [], .noBody⟩
  | .getInfo accountId => ⟨.GET, ["accounts", accountId], [], .noBody⟩
  | .getKeys accountId => ⟨.GET, ["accounts", accountId, "publicKey"], [], .noBody⟩
  | .getQueryBalance accountId => ⟨.GET, ["accounts", accountId, "balance"], [], .noBody⟩
  | .createAccount p => ⟨.POST, ["accounts"], [], .positional p⟩
  | .deleteAccount accountId p => ⟨.DELETE, ["accounts", accountId], [], .dataField p⟩
  | .updateAccount accountId p => ⟨.PUT, ["accounts", accountId], [], .positional p⟩
  | .transferHbar p => ⟨.POST, ["accounts", "transfer", "hbar"], [], .positional p⟩
  | .transferToken p => ⟨.POST, ["accounts", "transfer", "token"], [], .positional p⟩
  | .transferNftToken p => ⟨.POST, ["accounts", "transfer", "nft"], [], .positional p⟩
  | .atomicSwap p => ⟨.POST, ["accounts", "transfer", "atomic-swap"], [], .positional p⟩
  | .approveAllowance p => ⟨.POST, ["accounts", "allowance", "approve"], [], .positional p⟩
  | .deleteAllowance p => ⟨.POST, ["accounts", "allowance", "delete"], [], .positional p⟩
  | .getRestfulInfo accountId limit order timestamp transactionType transactions =>
      ⟨.GET, ["mirrors", "accounts", accountId],
        [("limit", limit.map toString), ("order", order), ("timestamp", timestamp),
         ("transactionType", transactionType), ("transactions", transactions.map toString)],
        .noBody⟩
  | .getNftsForAccount accountId => ⟨.GET, ["mirrors", "accounts", accountId, "nfts"], [], .noBody⟩
  | .getStakingRewardsForAccount accountId limit order timestamp =>
      ⟨.GET, ["mirrors", "accounts", accountId, "rewards"],
        [("limit", limit.map toString), ("order", order), ("timestamp", timestamp)], .noBody⟩
  | .getTokenRelationships accountId limit order token =>
      ⟨.GET, ["mirrors", "accounts", accountId, "tokens"],
        [("limit", limit.map toString), ("order", order), ("token", token)], .noBody⟩
  | .getTransactionById transactionId nonce scheduled =>
      ⟨.GET, ["transactions", transactionId],
        [("nonce", nonce.map toString), ("scheduled", scheduled.map toString)], .noBody⟩
  | .getTransactions accountId limit order timestamp transactionType result txType =>
      ⟨.GET, ["transactions"],
        [("accountId", accountId), ("limit", limit.map toString), ("order", order),
         ("timestamp", timestamp), ("transactionType", transactionType),
         ("result", result), ("type", txType)], .noBody⟩
  | .getRestfulTransactionById transactionId nonce scheduled =>
      ⟨.GET, ["mirrors", "transactions", transactionId],
        [("nonce", nonce.map toString), ("scheduled", scheduled.map toString)], .noBody⟩
  | .getTransactionStateProof transactionId nonce scheduled =>
      ⟨.GET, ["mirrors", "transactions", transactionId, "stateproof"],
        [("nonce", nonce.map toString), ("scheduled", scheduled.map toString)], .noBody⟩
  | .getScheduledTransaction scheduleId =>
      ⟨.GET, ["mirrors", "transactions", "schedules", scheduleId], [], .noBody⟩
  | .createTopic p => ⟨.POST, ["hcs"], [], .positional p⟩
  | .updateTopic topicId p => ⟨.PUT, ["hcs", topicId], [], .positional p⟩
  | .deleteTopic topicId p => ⟨.DELETE, ["hcs", topicId], [], .dataField p⟩
  | .getTopicInfo topicId => ⟨.GET, ["hcs", topicId], [], .noBody⟩
  | .submitMessage topicId p => ⟨.POST, ["hcs", topicId, "message"], [], .positional p⟩
  | .getMessages topicId info => ⟨.GET, ["hcs", topicId, "messages"], info, .noBody⟩
  | .getRestfulMessages topicId encoding limit order sequenceNumber timestamp =>
      ⟨.GET, ["mirrors", "hcs", "topics", topicId, "messages"],
        [("encoding", encoding), ("limit", limit.map toString), ("order", order),
         ("sequenceNumber", sequenceNumber.map toString), ("timestamp", timestamp)], .noBody⟩
  | .getMessageByIdAndSequenceNumber topicId sequenceNumber =>
      ⟨.GET, ["mirrors", "hcs", "topics", topicId, "messages", toString sequenceNumber], [], .noBody⟩
  | .getMessageByTimestamp timestamp =>
      ⟨.GET, ["mirrors", "hcs", "topics", "messages", timestamp], [], .noBody⟩
  | .createToken p => ⟨.POST, ["hts", "create", "token"], [], .positional p⟩
  | .updateToken tokenId p => ⟨.PATCH, ["hts", "update", tokenId], [], .positional p⟩
  | .updateTokenFees tokenId p => ⟨.PATCH, ["hts", "update", tokenId, "fees"], [], .positional p⟩
  | .deleteToken tokenId => ⟨.DELETE, ["hts", "delete", tokenId], [], .noBody⟩
  | .pauseToken tokenId => ⟨.POST, ["hts", "pause", tokenId], [], .noBody⟩
  | .unpauseToken tokenId => ⟨.POST, ["hts", "unpause", tokenId], [], .noBody⟩
  | .freezeToken tokenId => ⟨.POST, ["hts", "freeze", tokenId], [], .noBody⟩
  | .unfreezeToken tokenId => ⟨.POST, ["hts", "unfreeze", tokenId], [], .noBody⟩
  | .grantKyc tokenId p => ⟨.POST, ["hts", "grant-kyc", tokenId], [], .positional p⟩
  | .revokeKyc tokenId p => ⟨.POST, ["hts", "revoke-kyc", tokenId], [], .positional p⟩
  | .mintToken p => ⟨.POST, ["hts", "mint", "token"], [], .positional p⟩
  | .wipeToken p => ⟨.POST, ["hts", "wipe", "token"], [], .positional p⟩
  | .burnToken p => ⟨.POST, ["hts", "burn", "token"], [], .positional p⟩
  | .mintNftToken p => ⟨.POST, ["hts", "mint", "nft"], [], .positional p⟩
  | .wipeNftToken p => ⟨.POST, ["hts", "wipe", "nft"], [], .positional p⟩
  | .burnNftToken p => ⟨.POST, ["hts", "burn", "nft"], [], .positional p⟩
  | .getTokenInfo tokenId => ⟨.GET, ["hts", "token", tokenId], [], .noBody⟩
  | .getNftInfo tokenId serialNumber =>
      ⟨.GET, ["hts", "nft", tokenId, toString serialNumber], [], .noBody⟩
  | .getRestfulTokenInfo tokenId timestamp =>
      ⟨.GET, ["mirrors", "hts", "tokens", tokenId], [("timestamp", timestamp)], .noBody⟩
  | .getTokenBalances tokenId accountBalance accountId accountPublicKey limit order timestamp =>
      ⟨.GET, ["mirrors", "hts", "tokens", tokenId, "balances"],
        [("accountBalance", accountBalance.map toString), ("accountId", accountId),
         ("accountPublicKey", accountPublicKey), ("limit", limit.map toString),
         ("order", order), ("timestamp", timestamp)], .noBody⟩
  | .getTokenNfts tokenId accountId limit order serialNumber =>
      ⟨.GET, ["mirrors", "hts", "tokens", tokenId, "nfts"],
        [("accountId", accountId), ("limit", limit.map toString), ("order", order),
         ("serialNumber", serialNumber.map toString)], .noBody⟩
  | .getTokenNftBySerialNumber tokenId serialNumber =>
      ⟨.GET, ["mirrors", "hts", "tokens", tokenId, "nfts", toString serialNumber], [], .noBody⟩
  | .getTokenNftTransactionHistory tokenId serialNumber limit order timestamp =>
      ⟨.GET, ["mirrors", "hts", "tokens", tokenId, "nfts", "transactions"],
        [("serialNumber", some (toString serialNumber)), ("limit", limit.map toString),
         ("order", order), ("timestamp", timestamp)], .noBody⟩

/-- The optional query entries of a call, before the undefined ones are dropped. -/
def rawParams (c : OpCall B) : List (String × Option String) :=
  (opSpec c).raw

/-- The request a call constructs and hands to the client. -/
def buildRequest (c : OpCall B) : Request B :=
  { verb := (opSpec c).verb
    path := (opSpec c).path
    params := optParams (opSpec c).raw
    body := (opSpec c).body }

/-- The injected HTTP client, as the SDK sees it: one request in, either a
decoded payload or an error out. E is the error type, R the payload type. -/
abbrev Transport (B E R : Type) :=
  Request B → Except E R

/-- What one method invocation did: the requests it issued to the client, in
order, the errors it recorded via the logger, and the value it returned or
the error it threw. -/
structure OpResult (B E R : Type) where
  requests : List (Request B)
  logged : List E
  outcome : Except E R

/-- The shared method shape of every operation in the source: perform the one
client call and return the decoded data, or, on failure, log the error and
rethrow the same error value. -/
def runCall (t : Transport B E R) (r : Request B) : OpResult B E R :=
  match t r with
  | .ok d => ⟨[r], [], .ok d⟩
  | .error e => ⟨[r], [e], .error e⟩

/-- Execute one SDK method invocation against a transport. -/
def run (c : OpCall B) (t : Transport B E R) : OpResult B E R :=
  runCall t (buildRequest c)

/-- The base path segment of the class a call belongs to, as fixed once in
that class's constructor. -/
def groupBase (c : OpCall B) : String :=
  match c with
  | .getIdentifier | .getStatus | .getNetwork | .getUtilities => "smart-node"
  | .addConsensusValidator _ | .readConsensusValidator _ | .addTokenValidator _
  | .readTokenValidator _ | .addAccountValidator _ | .readAccountValidator _ => "validators"
  | .getInfo _ | .getKeys _ | .getQueryBalance _ | .createAccount _ | .deleteAccount _ _
  | .updateAccount _ _ | .transferHbar _ | .transferToken _ | .transferNftToken _
  | .atomicSwap _ | .approveAllowance _ | .deleteAllowance _ | .getRestfulInfo _ _ _ _ _ _
  | .getNftsForAccount _ | .getStakingRewardsForAccount _ _ _ _
  | .getTokenRelationships _ _ _ _ => "accounts"
  | .getTransactionById _ _ _ | .getTransactions _ _ _ _ _ _ _
  | .getRestfulTransactionById _ _ _ | .getTransactionStateProof _ _ _
  | .getScheduledTransaction _ => "transactions"
  | .createTopic _ | .updateTopic _ _ | .deleteTopic _ _ | .getTopicInfo _
  | .submitMessage _ _ | .getMessages _ _ | .getRestfulMessages _ _ _ _ _ _
  | .getMessageByIdAndSequenceNumber _ _ | .getMessageByTimestamp _ => "hcs"
  | _ => "hts"

/-- A call is mutating when it uses a non-GET verb; in this SDK these are
exactly the create, update, delete, transfer, mint, burn, freeze, pause,
wipe, KYC, approve and validator-submission operations. -/
def mutating (c : OpCall B) : Bool :=
  (buildRequest c).verb != Verb.GET

/-- The historical, listing or filtering query operations: the GET operations
whose purpose is fetching historical records or filtered or paginated lists,
as opposed to single current-state lookups (getInfo, getKeys, getQueryBalance,
getTopicInfo, getTokenInfo, getNftInfo, the node-status reads of the
smart-node class and the keyed validator reads). -/
def historicalQuery (c : OpCall B) : Bool :=
  match c with
  | .getRestfulInfo _ _ _ _ _ _ | .getNftsForAccount _
  | .getStakingRewardsForAccount _ _ _ _ | .getTokenRelationships _ _ _ _
  | .getTransactions _ _ _ _ _ _ _ | .getRestfulTransactionById _ _ _
  | .getTransactionStateProof _ _ _ | .getScheduledTransaction _
  | .getMessages _ _ | .getRestfulMessages _ _ _ _ _ _
  | .getMessageByIdAndSequenceNumber _ _ | .getMessageByTimestamp _
  | .getRestfulTokenInfo _ _ | .getTokenBalances _ _ _ _ _ _ _
  | .getTokenNfts _ _ _ _ _ | .getTokenNftBySerialNumber _ _
  | .getTokenNftTransactionHistory _ _ _ _ _ => true
  | _ => false

/-- The two listing queries that the code sends to the primary path rather
than the mirror path: getTransactions and getMessages. -/
def primaryListing (c : OpCall B) : Bool :=
  match c with
  | .getTransactions _ _ _ _ _ _ _ | .getMessages _ _ => true
  | _ => false

/-- The two operations that pass their payload through the request options
as the data field of an axios delete call. -/
def deleteWithData (c : OpCall B) : Bool :=
  match c with
  | .deleteAccount _ _ | .deleteTopic _ _ => true
  | _ => false

/-- An endpoint-group object as constructed once at startup: the injected
options object, the injected client, and the base path the class fixes.
O is the type of the opaque sdkOptions value. -/
structure RestfulGroup (O B E R : Type) where
  sdkOptions : O
  client : Transport B E R
  basePath : String

/-- A method invocation on a group object, with the object threaded through
explicitly: the method reads the group's client, performs the one call, and
the source body contains no assignment to any field, so the same group value
comes back next to the result. -/
def methodCall (g : RestfulGroup O B E R) (r : Request B) :
    RestfulGroup O B E R × OpResult B E R :=
  match g.client r with
  | .ok d => (g, ⟨[r], [], .ok d⟩)
  | .error e => (g, ⟨[r], [e], .error e⟩)

/-- The message-submission payload of hcs submitMessage in the scenario. -/
structure TopicMessage where
  message : String
deriving DecidableEq, Repr

/-- A pair belongs to the serialized parameter list exactly when the raw list
defines that key with that value. -/
theorem mem_optParams (l : List (String × Option String)) (k v : String) :
    (k, v) ∈ optParams l ↔ (k, some v) ∈ l := by
  simp only [optParams, List.mem_filterMap, Option.map_eq_some', Prod.mk.injEq]
  constructor
  · rintro ⟨⟨a, ov⟩, hm, w, hov, hk, hv⟩
    subst hk; subst hv; subst hov
    exact hm
  · intro hm
    exact ⟨(k, some v), hm, v, rfl, rfl, rfl⟩

/-- A key appears in the serialized parameter list exactly when the raw list
defines it. -/
theorem mem_keys_optParams (l : List (String × Option String)) (k : String) :
    k ∈ (optParams l).map Prod.fst ↔ ∃ v, (k, some v) ∈ l := by
  constructor
  · intro h
    obtain ⟨⟨a, b⟩, hab, hk⟩ := List.mem_map.mp h
    refine ⟨b, ?_⟩
    have : (a, b) ∈ optParams l := hab
    have hm := (mem_optParams l a b).mp this
    simpa [← hk] using hm
  · rintro ⟨v, hv⟩
    exact List.mem_map.mpr ⟨(k, v), (mem_optParams l k v).mpr hv, rfl⟩

/-- C1 fails as stated: getTransactions is a listing and filtering query
(its arguments are the filters accountId, limit, order, timestamp,
transactionType, result, type), yet it constructs the primary path, the bare
base path segment transactions, which does not begin with mirrors. -/
theorem c1_counterexample :
    historicalQuery (OpCall.getTransactions (B := Unit) none none none none none none none)
        = true ∧
    (buildRequest (OpCall.getTransactions (B := Unit) none none none none none none none)).path
        = ["transactions"] ∧
    (buildRequest (OpCall.getTransactions (B := Unit) none none none none none none none)).path.take 2
        ≠ ["mirrors", "transactions"] := by
  refine ⟨rfl, rfl, ?_⟩
  decide

set_option maxHeartbeats 1000000 in
/-- C1 (amended): every mutating operation constructs a path beginning with
its group's base path segment, and every historical, listing or filtering
query operation other than getTransactions and getMessages constructs a path
beginning with mirrors followed by the base path segment. -/
theorem c1_primary_mirror_split (c : OpCall B) :
    (mutating c = true → (buildRequest c).path.take 1 = [groupBase c]) ∧
    (historicalQuery c = true → primaryListing c = false →
      (buildRequest c).path.take 2 = ["mirrors", groupBase c]) := by
  cases c <;>
    exact ⟨fun hm => by first | rfl | exact Bool.noConfusion hm,
           fun hq hp => by
             first
               | rfl
               | exact Bool.noConfusion hq
               | exact Bool.noConfusion hp⟩

/-- Witness for the amended C1 at concrete calls: a mutating operation and a
mirror query. -/
theorem c1_primary_mirror_split_witness :
    (buildRequest (OpCall.createToken (B := Unit) ())).path.take 1 = ["hts"] ∧
    (buildRequest (OpCall.getTokenBalances (B := Unit)
        "0.0.500" none none none none none none)).path.take 2 = ["mirrors", "hts"] :=
  ⟨(c1_primary_mirror_split (OpCall.createToken ())).1 rfl,
   (c1_primary_mirror_split
      (OpCall.getTokenBalances "0.0.500" none none none none none none)).2 rfl rfl⟩

/-- C2: when the client rejects, the operation issues exactly that one
request, records the error, and rethrows the identical error value. -/
theorem c2_error_passthrough (c : OpCall B) (t : Transport B E R) (e : E)
    (h : t (buildRequest c) = .error e) :
    run c t = ⟨[buildRequest c], [e], .error e⟩ := by
  simp [run, runCall, h]

/-- Witness for C2: a transport rejecting a GET to accounts 0.0.9999 with a
not-found failure makes getInfo reject with that same failure after one
request. -/
theorem c2_error_passthrough_witness :
    run (OpCall.getInfo (B := Unit) "0.0.9999")
        (fun _ => (Except.error "not found" : Except String Unit)) =
      ⟨[buildRequest (OpCall.getInfo "0.0.9999")], ["not found"], .error "not found"⟩ :=
  c2_error_passthrough _ _ _ rfl

/-- C3: for every operation, a key is in the outgoing parameter set exactly
when the corresponding optional argument is defined, and the value sent for a
present key is exactly the defined value; undefined arguments leave the key
absent entirely. This covers both the URLSearchParams-guard style and the
plain-object style, which serialize through the same dropping of undefined
entries. -/
theorem c3_undefined_params_omitted (c : OpCall B) (k : String) :
    (k ∈ (buildRequest c).params.map Prod.fst ↔ ∃ v, (k, some v) ∈ rawParams c) ∧
    ∀ v, ((k, v) ∈ (buildRequest c).params ↔ (k, some v) ∈ rawParams c) :=
  ⟨mem_keys_optParams (opSpec c).raw k, fun v => mem_optParams (opSpec c).raw k v⟩

/-- C4: the getTokenBalances scenario call issues exactly one GET request to
mirrors/hts/tokens/0.0.500/balances whose parameter set is accountId, limit
and order with the expected values, and none of accountBalance,
accountPublicKey, timestamp. -/
theorem c4_getTokenBalances_scenario (t : Transport Unit E R) :
    (run (OpCall.getTokenBalances "0.0.500" none (some "0.0.1001") none
        (some 10) (some "desc") none) t).requests =
      [⟨.GET, ["mirrors", "hts", "tokens", "0.0.500", "balances"],
        [("accountId", "0.0.1001"), ("limit", "10"), ("order", "desc")], .noBody⟩] ∧
    (buildRequest (OpCall.getTokenBalances (B := Unit) "0.0.500" none (some "0.0.1001") none
        (some 10) (some "desc") none)).url = "mirrors/hts/tokens/0.0.500/balances" ∧
    "accountBalance" ∉ (buildRequest (OpCall.getTokenBalances (B := Unit) "0.0.500" none
        (some "0.0.1001") none (some 10) (some "desc") none)).params.map Prod.fst ∧
    "accountPublicKey" ∉ (buildRequest (OpCall.getTokenBalances (B := Unit) "0.0.500" none
        (some "0.0.1001") none (some 10) (some "desc") none)).params.map Prod.fst ∧
    "timestamp" ∉ (buildRequest (OpCall.getTokenBalances (B := Unit) "0.0.500" none
        (some "0.0.1001") none (some 10) (some "desc") none)).params.map Prod.fst := by
  refine ⟨?_, rfl, by decide, by decide, by decide⟩
  unfold run runCall
  cases t (buildRequest (OpCall.getTokenBalances "0.0.500" none (some "0.0.1001") none
    (some 10) (some "desc") none)) <;> rfl

/-- C5: getInfo issues exactly one GET to accounts/0.0.1001 and resolves with
the transport's decoded payload unchanged. -/
theorem c5_getInfo_scenario (t : Transport Unit E R) :
    (run (OpCall.getInfo "0.0.1001") t).requests =
      [⟨.GET, ["accounts", "0.0.1001"], [], .noBody⟩] ∧
    (buildRequest (OpCall.getInfo (B := Unit) "0.0.1001")).url = "accounts/0.0.1001" ∧
    ∀ d, t (buildRequest (OpCall.getInfo "0.0.1001")) = .ok d →
      (run (OpCall.getInfo "0.0.1001") t).outcome = .ok d := by
  refine ⟨?_, rfl, ?_⟩
  · unfold run runCall
    cases t (buildRequest (OpCall.getInfo "0.0.1001")) <;> rfl
  · intro d h
    simp [run, runCall, h]

/-- Witness for C5 at a concrete transport returning payload 42. -/
theorem c5_getInfo_scenario_witness :
    (run (OpCall.getInfo (B := Unit) "0.0.1001")
        (fun _ => (Except.ok 42 : Except Unit Nat))).outcome = .ok 42 :=
  (c5_getInfo_scenario _).2.2 42 rfl

/-- C6: submitMessage issues exactly one POST to hcs/0.0.2000/message whose
positional body is the message object, and resolves with the transport's
payload. -/
theorem c6_submitMessage_scenario (t : Transport TopicMessage E R) :
    (run (OpCall.submitMessage "0.0.2000" ⟨"hi"⟩) t).requests =
      [⟨.POST, ["hcs", "0.0.2000", "message"], [], .positional ⟨"hi"⟩⟩] ∧
    (buildRequest (OpCall.submitMessage "0.0.2000"
        (⟨"hi"⟩ : TopicMessage))).url = "hcs/0.0.2000/message" ∧
    ∀ d, t (buildRequest (OpCall.submitMessage "0.0.2000" ⟨"hi"⟩)) = .ok d →
      (run (OpCall.submitMessage "0.0.2000" ⟨"hi"⟩) t).outcome = .ok d := by
  refine ⟨?_, rfl, ?_⟩
  · unfold run runCall
    cases t (buildRequest (OpCall.submitMessage "0.0.2000" ⟨"hi"⟩)) <;> rfl
  · intro d h
    simp [run, runCall, h]

/-- Witness for C6 at a concrete transport returning payload 7. -/
theorem c6_submitMessage_scenario_witness :
    (run (OpCall.submitMessage "0.0.2000" (⟨"hi"⟩ : TopicMessage))
        (fun _ => (Except.ok 7 : Except Unit Nat))).outcome = .ok 7 :=
  (c6_submitMessage_scenario _).2.2 7 rfl

/-- C7: a read-only operation run twice with the same arguments issues two
independent requests, one per invocation, with identical construction: the
request is a function of the arguments alone and no caching suppresses the
second request. -/
theorem c7_readonly_idempotent (c : OpCall B) (t t' : Transport B E R)
    (_hread : (buildRequest c).verb = Verb.GET) :
    (run c t).requests = [buildRequest c] ∧
    (run c t').requests = [buildRequest c] ∧
    ((run c t).requests ++ (run c t').requests).length = 2 := by
  refine ⟨?_, ?_, ?_⟩ <;>
    simp [run, runCall] <;>
    first
      | (cases t (buildRequest c) <;> rfl)
      | (cases t' (buildRequest c) <;> rfl)
      | (cases t (buildRequest c) <;> cases t' (buildRequest c) <;> rfl)

/-- Witness for C7 at getTokenInfo with two different transports. -/
theorem c7_readonly_idempotent_witness :
    (run (OpCall.getTokenInfo (B := Unit) "0.0.500")
        (fun _ => (Except.ok 1 : Except Unit Nat))).requests =
      [buildRequest (OpCall.getTokenInfo "0.0.500")] :=
  (c7_readonly_idempotent (OpCall.getTokenInfo "0.0.500")
    (fun _ => (Except.ok 1 : Except Unit Nat))
    (fun _ => (Except.error () : Except Unit Nat)) rfl).1

/-- C8: a method invocation on a group object leaves the object unchanged,
field by field, whether the call resolves or rejects, and its outcome is
exactly the outcome of running the call against the group's client. -/
theorem c8_no_state_mutation (g : RestfulGroup O B E R) (c : OpCall B) :
    (methodCall g (buildRequest c)).1 = g ∧
    (methodCall g (buildRequest c)).1.basePath = g.basePath ∧
    (methodCall g (buildRequest c)).1.client = g.client ∧
    (methodCall g (buildRequest c)).1.sdkOptions = g.sdkOptions ∧
    (methodCall g (buildRequest c)).2.outcome = (run c g.client).outcome := by
  unfold methodCall run runCall
  cases g.client (buildRequest c) <;> simp

/-- C9: in the three transaction query operations, a defined nonce is sent as
its decimal rendering, a defined scheduled flag as its true or false
rendering (scheduled false is sent as the string false, not dropped), and
undefined nonce or scheduled appends no key at all. -/
theorem c9_nonce_scheduled_rendering (transactionId : String) (n : Nat) (b : Bool) :
    ((buildRequest (OpCall.getTransactionById (B := Unit) transactionId
        (some n) (some b))).params = [("nonce", toString n), ("scheduled", toString b)]) ∧
    ((buildRequest (OpCall.getTransactionById (B := Unit) transactionId
        none none)).params = []) ∧
    ((buildRequest (OpCall.getTransactionById (B := Unit) transactionId
        (some n) none)).params = [("nonce", toString n)]) ∧
    ((buildRequest (OpCall.getTransactionById (B := Unit) transactionId
        none (some b))).params = [("scheduled", toString b)]) ∧
    ((buildRequest (OpCall.getTransactionById (B := Unit) transactionId
        none (some false))).params = [("scheduled", "false")]) ∧
    ((buildRequest (OpCall.getRestfulTransactionById (B := Unit) transactionId
        (some n) (some b))).params = [("nonce", toString n), ("scheduled", toString b)]) ∧
    ((buildRequest (OpCall.getRestfulTransactionById (B := Unit) transactionId
        none none)).params = []) ∧
    ((buildRequest (OpCall.getRestfulTransactionById (B := Unit) transactionId
        none (some false))).params = [("scheduled", "false")]) ∧
    ((buildRequest (OpCall.getTransactionStateProof (B := Unit) transactionId
        (some n) (some b))).params = [("nonce", toString n), ("scheduled", toString b)]) ∧
    ((buildRequest (OpCall.getTransactionStateProof (B := Unit) transactionId
        none none)).params = []) ∧
    ((buildRequest (OpCall.getTransactionStateProof (B := Unit) transactionId
        none (some false))).params = [("scheduled", "false")]) :=
  ⟨rfl, rfl, rfl, rfl, rfl, rfl, rfl, rfl, rfl, rfl, rfl⟩

/-- C10: deleteAccount and deleteTopic put the caller's params object in the
request body through the data field of the request options, with empty query
parameters and the identifier interpolated into the path; among mutating
operations only these two use the data-field placement, and every mutating
operation with a positional payload uses POST, PUT or PATCH. -/
theorem c10_delete_body_placement (accountId topicId : String) (p : B) (c : OpCall B) :
    buildRequest (OpCall.deleteAccount accountId p) =
      ⟨.DELETE, ["accounts", accountId], [], .dataField p⟩ ∧
    buildRequest (OpCall.deleteTopic topicId p) =
      ⟨.DELETE, ["hcs", topicId], [], .dataField p⟩ ∧
    (mutating c = true → ∀ b, (buildRequest c).body = .dataField b →
      deleteWithData c = true) ∧
    (mutating c = true → ∀ b, (buildRequest c).body = .positional b →
      (buildRequest c).verb = Verb.POST ∨ (buildRequest c).verb = Verb.PUT ∨
        (buildRequest c).verb = Verb.PATCH) := by
  refine ⟨rfl, rfl, ?_, ?_⟩ <;>
    cases c <;> simp [mutating, buildRequest, opSpec, deleteWithData]

/-- Witness for C10 at concrete calls: updateTopic is mutating with a
positional body and a PUT verb. -/
theorem c10_delete_body_placement_witness :
    (buildRequest (OpCall.updateTopic (B := Unit) "0.0.2" ())).verb = Verb.POST ∨
    (buildRequest (OpCall.updateTopic (B := Unit) "0.0.2" ())).verb = Verb.PUT ∨
    (buildRequest (OpCall.updateTopic (B := Unit) "0.0.2" ())).verb = Verb.PATCH :=
  (c10_delete_body_placement "0.0.9" "0.0.2" () (OpCall.updateTopic "0.0.2" ())).2.2.2
    rfl () rfl

end SmartnodeSdk
